import Mathlib

/-!
Shallow embedding of the Celestia 3DS chunk reader (src/cel3ds/3dsread.cpp).

The byte stream is a list of natural numbers (one per byte, little-endian on
the wire).  Each C++ reader that returns a success flag and writes through an
out-parameter becomes a Lean function returning an Option of the decoded value
paired with the remaining stream.  Each chunk-processing function that returns
a signed 32-bit status (byte count, READ_FAILURE = -1, or UNKNOWN_CHUNK = -2)
and mutates an object through a pointer becomes a Lean function returning the
status as an Int together with the stream and object states after the call.
Machine floats are modelled as exact rationals via an IEEE-754 binary32
decoder; 32-bit signed integers are modelled as Int with explicit two's
complement decoding (the byte-count arithmetic of this parser stays far below
the 32-bit range on any stream it can actually consume).
-/

namespace Cel3DS

/-- A byte stream: the bytes not yet consumed, most recent cursor first. -/
abbrev ByteStream := List Nat

/-- READ_FAILURE sentinel from 3dsread.cpp. -/
def READ_FAILURE : Int := -1

/-- UNKNOWN_CHUNK sentinel from 3dsread.cpp. -/
def UNKNOWN_CHUNK : Int := -2

/-- Two's complement reading of an unsigned 16-bit value as int16_t. -/
def toSigned16 (v : Nat) : Int :=
  if v < 2 ^ 15 then (v : Int) else (v : Int) - 2 ^ 16

/-- Two's complement reading of an unsigned 32-bit value as int32_t. -/
def toSigned32 (v : Nat) : Int :=
  if v < 2 ^ 31 then (v : Int) else (v : Int) - 2 ^ 32

/-- Exact rational value of an IEEE-754 binary32 bit pattern.  Normal and
subnormal values (and zeros) are decoded exactly; the exponent-255 patterns
(infinities and NaNs), which denote no rational value, are mapped to 0. -/
def bitsToFloat (b : Nat) : ℚ :=
  let sign : ℚ := if b / 2 ^ 31 % 2 = 1 then -1 else 1
  let expo : Nat := b / 2 ^ 23 % 2 ^ 8
  let mant : Nat := b % 2 ^ 23
  if expo = 0 then sign * mant / 2 ^ 149
  else if expo = 255 then 0
  else sign * (2 ^ 23 + mant) * 2 ^ expo / 2 ^ 150

/-- readInt from 3dsread.cpp: four little-endian bytes decoded as int32_t;
failure when the stream is exhausted. -/
def readInt (s : ByteStream) : Option (Int × ByteStream) :=
  match s with
  | b0 :: b1 :: b2 :: b3 :: rest =>
      some (toSigned32 (b0 + 2 ^ 8 * b1 + 2 ^ 16 * b2 + 2 ^ 24 * b3), rest)
  | _ => none

/-- readShort from 3dsread.cpp: two little-endian bytes decoded as int16_t. -/
def readShort (s : ByteStream) : Option (Int × ByteStream) :=
  match s with
  | b0 :: b1 :: rest => some (toSigned16 (b0 + 2 ^ 8 * b1), rest)
  | _ => none

/-- readUshort from 3dsread.cpp: two little-endian bytes decoded as uint16_t. -/
def readUshort (s : ByteStream) : Option (Nat × ByteStream) :=
  match s with
  | b0 :: b1 :: rest => some (b0 + 2 ^ 8 * b1, rest)
  | _ => none

/-- readFloat from 3dsread.cpp: four little-endian bytes decoded as an
IEEE-754 binary32 value, modelled as an exact rational. -/
def readFloat (s : ByteStream) : Option (ℚ × ByteStream) :=
  match s with
  | b0 :: b1 :: b2 :: b3 :: rest =>
      some (bitsToFloat (b0 + 2 ^ 8 * b1 + 2 ^ 16 * b2 + 2 ^ 24 * b3), rest)
  | _ => none

/-- readUchar from 3dsread.cpp: one byte. -/
def readUchar (s : ByteStream) : Option (Nat × ByteStream) :=
  match s with
  | b :: rest => some (b, rest)
  | _ => none

/-- Loop body of readString: scan for a terminating zero byte within the
remaining byte allowance, accumulating the bytes read so far. -/
def readStringAux : Nat → ByteStream → List Nat → Option (List Nat × Nat × ByteStream)
  | 0, _, _ => none
  | _ + 1, [], _ => none
  | allowance + 1, b :: rest, acc =>
      if b = 0 then some (acc.reverse, acc.length + 1, rest)
      else readStringAux allowance rest (b :: acc)

/-- readString from 3dsread.cpp: a zero-terminated byte string of at most 1024
bytes including the terminator.  On success it yields the string content, the
number of bytes consumed (terminator included), and the remaining stream;
running past the 1024-byte cap or off the end of the stream is a failure. -/
def readString (s : ByteStream) : Option (List Nat × Nat × ByteStream) :=
  readStringAux 1024 s []

/-! Chunk-type tags.  Modelled from the spec: the header 3dschunk.h defining
the M3DCHUNK constants is not part of the provided sources; the spec fixes
only that each tag is a distinct 16-bit constant, so the standard 3DS values
are used.  No claim depends on the particular numbers. -/

def M3DCHUNK_MAGIC : Nat := 0x4d4d
def M3DCHUNK_MESHDATA : Nat := 0x3d3d
def M3DCHUNK_BACKGROUND_COLOR : Nat := 0x1200
def M3DCHUNK_NAMED_OBJECT : Nat := 0x4000
def M3DCHUNK_TRIANGLE_MESH : Nat := 0x4100
def M3DCHUNK_POINT_ARRAY : Nat := 0x4110
def M3DCHUNK_FACE_ARRAY : Nat := 0x4120
def M3DCHUNK_MESH_MATERIAL_GROUP : Nat := 0x4130
def M3DCHUNK_MESH_TEXTURE_COORDS : Nat := 0x4140
def M3DCHUNK_MESH_SMOOTH_GROUP : Nat := 0x4150
def M3DCHUNK_MESH_MATRIX : Nat := 0x4160
def M3DCHUNK_MATERIAL_ENTRY : Nat := 0xafff
def M3DCHUNK_MATERIAL_NAME : Nat := 0xa000
def M3DCHUNK_MATERIAL_AMBIENT : Nat := 0xa010
def M3DCHUNK_MATERIAL_DIFFUSE : Nat := 0xa020
def M3DCHUNK_MATERIAL_SPECULAR : Nat := 0xa030
def M3DCHUNK_MATERIAL_SHININESS : Nat := 0xa040
def M3DCHUNK_MATERIAL_TRANSPARENCY : Nat := 0xa050
def M3DCHUNK_MATERIAL_TEXMAP : Nat := 0xa200
def M3DCHUNK_MATERIAL_MAPNAME : Nat := 0xa300
def M3DCHUNK_COLOR_FLOAT : Nat := 0x0010
def M3DCHUNK_COLOR_24 : Nat := 0x0011
def M3DCHUNK_INT_PERCENTAGE : Nat := 0x0030
def M3DCHUNK_FLOAT_PERCENTAGE : Nat := 0x0031

/-! Scene-graph containers.  Modelled from the spec: the 3dsmodel.h types
(M3DScene, M3DModel, M3DTriangleMesh, M3DMeshMaterialGroup, M3DMaterial,
M3DColor) are external collaborators not in the provided sources; the spec
describes them as plain containers mutated by construct-empty, append-child,
set-field, and a live face-count query, which is what is embedded here. -/

/-- An RGB colour of three float components. -/
structure M3DColor where
  r : ℚ
  g : ℚ
  b : ℚ
deriving DecidableEq, Repr

/-- The all-zero colour produced by the default constructor. -/
def M3DColor.black : M3DColor := ⟨0, 0, 0⟩

/-- A 4x4 float matrix written row by row, as Eigen Matrix4f comma
initialisation fills it in readMeshMatrix. -/
structure Matrix4f where
  m00 : ℚ
  m01 : ℚ
  m02 : ℚ
  m03 : ℚ
  m10 : ℚ
  m11 : ℚ
  m12 : ℚ
  m13 : ℚ
  m20 : ℚ
  m21 : ℚ
  m22 : ℚ
  m23 : ℚ
  m30 : ℚ
  m31 : ℚ
  m32 : ℚ
  m33 : ℚ
deriving DecidableEq, Repr

/-- A material group: a material name and the list of face indices bound to
it, appended in stream order. -/
structure M3DMeshMaterialGroup where
  materialName : List Nat
  faces : List Nat
deriving DecidableEq, Repr

/-- A triangle mesh under construction: ordered vertex, texture-coordinate,
face, smoothing-group and material-group lists plus the local transform. -/
structure M3DTriangleMesh where
  vertices : List (ℚ × ℚ × ℚ) := []
  texCoords : List (ℚ × ℚ) := []
  faces : List (Nat × Nat × Nat) := []
  smoothingGroups : List Nat := []
  meshMaterialGroups : List M3DMeshMaterialGroup := []
  matrix : Option Matrix4f := none
deriving DecidableEq, Repr

def M3DTriangleMesh.empty : M3DTriangleMesh := {}

def M3DTriangleMesh.addVertex (m : M3DTriangleMesh) (v : ℚ × ℚ × ℚ) : M3DTriangleMesh :=
  { m with vertices := m.vertices ++ [v] }

def M3DTriangleMesh.addTexCoord (m : M3DTriangleMesh) (t : ℚ × ℚ) : M3DTriangleMesh :=
  { m with texCoords := m.texCoords ++ [t] }

def M3DTriangleMesh.addFace (m : M3DTriangleMesh) (f : Nat × Nat × Nat) : M3DTriangleMesh :=
  { m with faces := m.faces ++ [f] }

def M3DTriangleMesh.addSmoothingGroups (m : M3DTriangleMesh) (g : Nat) : M3DTriangleMesh :=
  { m with smoothingGroups := m.smoothingGroups ++ [g] }

def M3DTriangleMesh.addMeshMaterialGroup (m : M3DTriangleMesh) (g : M3DMeshMaterialGroup) :
    M3DTriangleMesh :=
  { m with meshMaterialGroups := m.meshMaterialGroups ++ [g] }

def M3DTriangleMesh.setMatrix (m : M3DTriangleMesh) (mat : Matrix4f) : M3DTriangleMesh :=
  { m with matrix := some mat }

/-- The live face count queried mid-parse by the smoothing-group reader. -/
def M3DTriangleMesh.getFaceCount (m : M3DTriangleMesh) : Nat :=
  m.faces.length

/-- A named model owning its triangle meshes. -/
structure M3DModel where
  name : List Nat := []
  triMeshes : List M3DTriangleMesh := []
deriving DecidableEq, Repr

def M3DModel.empty : M3DModel := {}

def M3DModel.setName (m : M3DModel) (n : List Nat) : M3DModel :=
  { m with name := n }

def M3DModel.addTriMesh (m : M3DModel) (t : M3DTriangleMesh) : M3DModel :=
  { m with triMeshes := m.triMeshes ++ [t] }

/-- A material: name, colours, shininess, opacity and texture map name. -/
structure M3DMaterial where
  name : List Nat := []
  ambient : M3DColor := M3DColor.black
  diffuse : M3DColor := M3DColor.black
  specular : M3DColor := M3DColor.black
  shininess : ℚ := 0
  opacity : ℚ := 1
  textureMap : List Nat := []
deriving DecidableEq, Repr

def M3DMaterial.empty : M3DMaterial := {}

def M3DMaterial.setName (m : M3DMaterial) (n : List Nat) : M3DMaterial :=
  { m with name := n }

def M3DMaterial.setAmbientColor (m : M3DMaterial) (c : M3DColor) : M3DMaterial :=
  { m with ambient := c }

def M3DMaterial.setDiffuseColor (m : M3DMaterial) (c : M3DColor) : M3DMaterial :=
  { m with diffuse := c }

def M3DMaterial.setSpecularColor (m : M3DMaterial) (c : M3DColor) : M3DMaterial :=
  { m with specular := c }

def M3DMaterial.setShininess (m : M3DMaterial) (v : ℚ) : M3DMaterial :=
  { m with shininess := v }

def M3DMaterial.setOpacity (m : M3DMaterial) (v : ℚ) : M3DMaterial :=
  { m with opacity := v }

def M3DMaterial.setTextureMap (m : M3DMaterial) (n : List Nat) : M3DMaterial :=
  { m with textureMap := n }

/-- A whole decoded scene: ordered models, ordered materials, background. -/
structure M3DScene where
  models : List M3DModel := []
  materials : List M3DMaterial := []
  backgroundColor : M3DColor := M3DColor.black
deriving DecidableEq, Repr

def M3DScene.empty : M3DScene := {}

def M3DScene.addModel (s : M3DScene) (m : M3DModel) : M3DScene :=
  { s with models := s.models ++ [m] }

def M3DScene.addMaterial (s : M3DScene) (m : M3DMaterial) : M3DScene :=
  { s with materials := s.materials ++ [m] }

def M3DScene.setBackgroundColor (s : M3DScene) (c : M3DColor) : M3DScene :=
  { s with backgroundColor := c }

/-- Shape of a chunk handler (ProcessChunkFunc in 3dsread.cpp): stream, chunk
type, content size and object in; status (consumed byte count, READ_FAILURE or
UNKNOWN_CHUNK), stream and object out. -/
abbrev ProcessChunkFunc (T : Type) := ByteStream → Nat → Int → T → Int × ByteStream × T

/-- The istream ignore call of the unknown-chunk branch: drop n bytes, failing
(eofbit) when fewer than n remain. -/
def ignoreBytes (n : Int) (s : ByteStream) : Option ByteStream :=
  if n.toNat ≤ s.length then some (s.drop n.toNat) else none

/-- read3DSChunk from 3dsread.cpp: read the 6-byte header (uint16 type plus
int32 total size, rejecting total sizes below 6), hand the content to the
handler, then reconcile: a READ_FAILURE status fails, an UNKNOWN_CHUNK status
skips contentSize bytes and succeeds if the stream holds them, and any other
status succeeds exactly when it equals contentSize.  Success returns the
header-inclusive chunk size.  On the failure paths the C++ stream state is
unspecified for callers; the model keeps the position the failing step left. -/
def read3DSChunk {T : Type} (f : ProcessChunkFunc T) (s : ByteStream) (t : T) :
    Int × ByteStream × T :=
  match readUshort s with
  | none => (READ_FAILURE, s, t)
  | some (chunkType, s1) =>
    match readInt s1 with
    | none => (READ_FAILURE, s1, t)
    | some (chunkSize, s2) =>
      if chunkSize < 6 then (READ_FAILURE, s2, t)
      else
        match f s2 chunkType (chunkSize - 6) t with
        | (processedSize, s3, t3) =>
          if processedSize = READ_FAILURE then (READ_FAILURE, s3, t3)
          else if processedSize = UNKNOWN_CHUNK then
            match ignoreBytes (chunkSize - 6) s3 with
            | some s4 => (chunkSize, s4, t3)
            | none => (READ_FAILURE, [], t3)
          else if processedSize ≠ chunkSize - 6 then (READ_FAILURE, s3, t3)
          else (chunkSize, s3, t3)

/-- Loop of read3DSChunks from 3dsread.cpp, with the running bytesRead
accumulator explicit: dispatch chunks while the accumulated size is below the
budget, fail as soon as a dispatch fails, and after the loop fail unless the
accumulated size equals the budget exactly.  Termination: whatever the
handler does, a successful dispatch returns the declared chunk size, which
the header check bounds below by 6. -/
def read3DSChunksAux {T : Type} (f : ProcessChunkFunc T) (nBytes bytesRead : Int)
    (s : ByteStream) (t : T) : Int × ByteStream × T :=
  if bytesRead < nBytes then
    if (read3DSChunk f s t).1 < 0 then
      (READ_FAILURE, (read3DSChunk f s t).2.1, (read3DSChunk f s t).2.2)
    else
      read3DSChunksAux f nBytes (bytesRead + (read3DSChunk f s t).1)
        (read3DSChunk f s t).2.1 (read3DSChunk f s t).2.2
  else if bytesRead ≠ nBytes then (READ_FAILURE, s, t)
  else (bytesRead, s, t)
termination_by (nBytes - bytesRead).toNat
decreasing_by
  have hd : (read3DSChunk f s t).1 = READ_FAILURE ∨ 6 ≤ (read3DSChunk f s t).1 := by
    unfold read3DSChunk
    split
    · exact Or.inl rfl
    split
    · exact Or.inl rfl
    split
    · exact Or.inl rfl
    split
    split
    · exact Or.inl rfl
    split
    · split
      · rename_i hge _ _ _ _
        exact Or.inr (by omega)
      · exact Or.inl rfl
    split
    · exact Or.inl rfl
    · rename_i hge _ _ _ _ _
      exact Or.inr (by omega)
  rcases hd with hf | hs
  · simp only [READ_FAILURE] at hf
    omega
  · omega

/-- read3DSChunks from 3dsread.cpp: run the chunk loop with an initial
accumulator of zero. -/
def read3DSChunks {T : Type} (f : ProcessChunkFunc T) (nBytes : Int)
    (s : ByteStream) (t : T) : Int × ByteStream × T :=
  read3DSChunksAux f nBytes 0 s t

/-- A complete successful pass of the chunk loop over a byte budget: a chain
of successful dispatcher calls whose returned header-inclusive sizes sum to
the budget exactly, threading the stream and object states through. -/
inductive ChunkRun {T : Type} (f : ProcessChunkFunc T) :
    Int → ByteStream → T → ByteStream → T → Prop
  | nil (s : ByteStream) (t : T) : ChunkRun f 0 s t s t
  | cons {budget : Int} {s s1 s2 : ByteStream} {t t1 t2 : T} {c : Int}
      (hpos : 0 < budget) (hchunk : read3DSChunk f s t = (c, s1, t1)) (hc : 0 ≤ c)
      (hrest : ChunkRun f (budget - c) s1 t1 s2 t2) : ChunkRun f budget s t s2 t2

/-- readColor from 3dsread.cpp: three bytes, each normalised by 255. -/
def readColor (s : ByteStream) : Option (M3DColor × ByteStream) := do
  let (r, s) ← readUchar s
  let (g, s) ← readUchar s
  let (b, s) ← readUchar s
  some (⟨(r : ℚ) / 255, (g : ℚ) / 255, (b : ℚ) / 255⟩, s)

/-- readFloatColor from 3dsread.cpp: three floats taken directly. -/
def readFloatColor (s : ByteStream) : Option (M3DColor × ByteStream) := do
  let (r, s) ← readFloat s
  let (g, s) ← readFloat s
  let (b, s) ← readFloat s
  some (⟨r, g, b⟩, s)

/-- readMeshMatrix from 3dsread.cpp: twelve wire floats (the C++ elements
array, bound here as p0..p11 with their successive stream positions) poured
row by row into a 4x4 matrix by Eigen comma initialisation, the fourth entry
of each of the first three rows being 0 and the sixteenth entry 1. -/
def readMeshMatrix (s : ByteStream) : Option (Matrix4f × ByteStream) :=
  (readFloat s).bind fun p0 =>
  (readFloat p0.2).bind fun p1 =>
  (readFloat p1.2).bind fun p2 =>
  (readFloat p2.2).bind fun p3 =>
  (readFloat p3.2).bind fun p4 =>
  (readFloat p4.2).bind fun p5 =>
  (readFloat p5.2).bind fun p6 =>
  (readFloat p6.2).bind fun p7 =>
  (readFloat p7.2).bind fun p8 =>
  (readFloat p8.2).bind fun p9 =>
  (readFloat p9.2).bind fun p10 =>
  (readFloat p10.2).bind fun p11 =>
  some (⟨p0.1, p1.1, p2.1, 0,
         p3.1, p4.1, p5.1, 0,
         p6.1, p7.1, p8.1, 0,
         p9.1, p10.1, p11.1, 1⟩, p11.2)

/-- Vertex loop of readPointArray: read the remaining count of 3-float
vertices, appending each to the mesh and 12 to the byte count. -/
def readPointArrayAux : Nat → ByteStream → M3DTriangleMesh → Int →
    Int × ByteStream × M3DTriangleMesh
  | 0, s, m, bytesRead => (bytesRead, s, m)
  | n + 1, s, m, bytesRead =>
    match readFloat s with
    | none => (READ_FAILURE, s, m)
    | some (x, s1) =>
      match readFloat s1 with
      | none => (READ_FAILURE, s1, m)
      | some (y, s2) =>
        match readFloat s2 with
        | none => (READ_FAILURE, s2, m)
        | some (z, s3) =>
            readPointArrayAux n s3 (m.addVertex (x, y, z)) (bytesRead + 12)

/-- readPointArray from 3dsread.cpp: a uint16 count then that many 3-float
vertices; returns the bytes consumed. -/
def readPointArray (s : ByteStream) (triMesh : M3DTriangleMesh) :
    Int × ByteStream × M3DTriangleMesh :=
  match readUshort s with
  | none => (READ_FAILURE, s, triMesh)
  | some (nPoints, s1) => readPointArrayAux nPoints s1 triMesh 2

/-- Coordinate loop of readTextureCoordArray: read the remaining count of
2-float pairs, negating the second component as it is stored. -/
def readTextureCoordArrayAux : Nat → ByteStream → M3DTriangleMesh → Int →
    Int × ByteStream × M3DTriangleMesh
  | 0, s, m, bytesRead => (bytesRead, s, m)
  | n + 1, s, m, bytesRead =>
    match readFloat s with
    | none => (READ_FAILURE, s, m)
    | some (u, s1) =>
      match readFloat s1 with
      | none => (READ_FAILURE, s1, m)
      | some (v, s2) =>
          readTextureCoordArrayAux n s2 (m.addTexCoord (u, -v)) (bytesRead + 8)

/-- readTextureCoordArray from 3dsread.cpp: a uint16 count then that many
2-float texture coordinates, with the wire V component negated. -/
def readTextureCoordArray (s : ByteStream) (triMesh : M3DTriangleMesh) :
    Int × ByteStream × M3DTriangleMesh :=
  match readUshort s with
  | none => (READ_FAILURE, s, triMesh)
  | some (nPoints, s1) => readTextureCoordArrayAux nPoints s1 triMesh 2

/-- Face-index loop of the material-group branch of processFaceArrayChunk:
read the remaining count of uint16 face indices into the group. -/
def readMatGroupFacesAux : Nat → ByteStream → M3DMeshMaterialGroup → Int →
    Int × ByteStream × M3DMeshMaterialGroup
  | 0, s, g, bytesRead => (bytesRead, s, g)
  | n + 1, s, g, bytesRead =>
    match readUshort s with
    | none => (READ_FAILURE, s, g)
    | some (faceIndex, s1) =>
        readMatGroupFacesAux n s1 { g with faces := g.faces ++ [faceIndex] } (bytesRead + 2)

/-- Smoothing-group loop of processFaceArrayChunk: read the remaining count of
int32 bitmasks, failing on a negative value, appending each to the mesh. -/
def readSmoothingGroupsAux : Nat → ByteStream → M3DTriangleMesh → Int →
    Int × ByteStream × M3DTriangleMesh
  | 0, s, m, bytesRead => (bytesRead, s, m)
  | n + 1, s, m, bytesRead =>
    match readInt s with
    | none => (READ_FAILURE, s, m)
    | some (groups, s1) =>
      if groups < 0 then (READ_FAILURE, s1, m)
      else readSmoothingGroupsAux n s1 (m.addSmoothingGroups groups.toNat) (bytesRead + 4)

/-- processFaceArrayChunk from 3dsread.cpp: the face-array trailer handler.
A material-group chunk reads a material name, a uint16 count and that many
face indices, attaching the finished group to the mesh; a smoothing-group
chunk reads one int32 bitmask per existing mesh face, failing hard on a
negative value; other types are unknown. -/
def processFaceArrayChunk : ProcessChunkFunc M3DTriangleMesh :=
  fun s chunkType _ triMesh =>
    if chunkType = M3DCHUNK_MESH_MATERIAL_GROUP then
      match readString s with
      | none => (READ_FAILURE, s, triMesh)
      | some (materialName, count, s1) =>
        match readUshort s1 with
        | none => (READ_FAILURE, s1, triMesh)
        | some (nFaces, s2) =>
          match readMatGroupFacesAux nFaces s2 ⟨materialName, []⟩ ((count : Int) + 2) with
          | (bytesRead, s3, matGroup) =>
            if bytesRead < 0 then (READ_FAILURE, s3, triMesh)
            else (bytesRead, s3, triMesh.addMeshMaterialGroup matGroup)
    else if chunkType = M3DCHUNK_MESH_SMOOTH_GROUP then
      readSmoothingGroupsAux triMesh.getFaceCount s triMesh 0
    else (UNKNOWN_CHUNK, s, triMesh)

/-- Face loop of readFaceArray: read the remaining count of four-uint16
records (three vertex indices and a flags word that is not retained). -/
def readFaceArrayFacesAux : Nat → ByteStream → M3DTriangleMesh → Int →
    Int × ByteStream × M3DTriangleMesh
  | 0, s, m, bytesRead => (bytesRead, s, m)
  | n + 1, s, m, bytesRead =>
    match readUshort s with
    | none => (READ_FAILURE, s, m)
    | some (v0, s1) =>
      match readUshort s1 with
      | none => (READ_FAILURE, s1, m)
      | some (v1, s2) =>
        match readUshort s2 with
        | none => (READ_FAILURE, s2, m)
        | some (v2, s3) =>
          match readUshort s3 with
          | none => (READ_FAILURE, s3, m)
          | some (_, s4) =>
              readFaceArrayFacesAux n s4 (m.addFace (v0, v1, v2)) (bytesRead + 8)

/-- readFaceArray from 3dsread.cpp: a uint16 face count and that many face
records; a face list longer than the declared content fails, and declared
content remaining after the face list is parsed as trailer chunks, whose
result is added to the byte count unchecked. -/
def readFaceArray (s : ByteStream) (triMesh : M3DTriangleMesh) (contentSize : Int) :
    Int × ByteStream × M3DTriangleMesh :=
  match readUshort s with
  | none => (READ_FAILURE, s, triMesh)
  | some (nFaces, s1) =>
    match readFaceArrayFacesAux nFaces s1 triMesh 2 with
    | (bytesRead, s2, m2) =>
      if bytesRead = READ_FAILURE then (READ_FAILURE, s2, m2)
      else if bytesRead > contentSize then (READ_FAILURE, s2, m2)
      else if bytesRead < contentSize then
        match read3DSChunks processFaceArrayChunk (contentSize - bytesRead) s2 m2 with
        | (trailingSize, s3, m3) => (bytesRead + trailingSize, s3, m3)
      else (bytesRead, s2, m2)

/-- processTriMeshChunk from 3dsread.cpp: the triangle-mesh level handler. -/
def processTriMeshChunk : ProcessChunkFunc M3DTriangleMesh :=
  fun s chunkType contentSize triMesh =>
    if chunkType = M3DCHUNK_POINT_ARRAY then readPointArray s triMesh
    else if chunkType = M3DCHUNK_MESH_TEXTURE_COORDS then readTextureCoordArray s triMesh
    else if chunkType = M3DCHUNK_FACE_ARRAY then readFaceArray s triMesh contentSize
    else if chunkType = M3DCHUNK_MESH_MATRIX then
      match readMeshMatrix s with
      | none => (READ_FAILURE, s, triMesh)
      | some (matrix, s1) => (48, s1, triMesh.setMatrix matrix)
    else (UNKNOWN_CHUNK, s, triMesh)

/-- processModelChunk from 3dsread.cpp: a triangle-mesh chunk parses a fresh
mesh over the declared content and attaches it to the model only when the
nested parse did not fail; other types are unknown. -/
def processModelChunk : ProcessChunkFunc M3DModel :=
  fun s chunkType contentSize model =>
    if chunkType = M3DCHUNK_TRIANGLE_MESH then
      match read3DSChunks processTriMeshChunk contentSize s M3DTriangleMesh.empty with
      | (bytesRead, s1, triMesh) =>
        if bytesRead = READ_FAILURE then (READ_FAILURE, s1, model)
        else (bytesRead, s1, model.addTriMesh triMesh)
    else (UNKNOWN_CHUNK, s, model)

/-- processColorChunk from 3dsread.cpp: 24-bit or float colour. -/
def processColorChunk : ProcessChunkFunc M3DColor :=
  fun s chunkType _ color =>
    if chunkType = M3DCHUNK_COLOR_24 then
      match readColor s with
      | none => (READ_FAILURE, s, color)
      | some (c, s1) => (3, s1, c)
    else if chunkType = M3DCHUNK_COLOR_FLOAT then
      match readFloatColor s with
      | none => (READ_FAILURE, s, color)
      | some (c, s1) => (12, s1, c)
    else (UNKNOWN_CHUNK, s, color)

/-- processPercentageChunk from 3dsread.cpp: an integer percentage is an int16
widened to float, a float percentage is read directly; no range check. -/
def processPercentageChunk : ProcessChunkFunc ℚ :=
  fun s chunkType _ percent =>
    if chunkType = M3DCHUNK_INT_PERCENTAGE then
      match readShort s with
      | none => (READ_FAILURE, s, percent)
      | some (v, s1) => (2, s1, (v : ℚ))
    else if chunkType = M3DCHUNK_FLOAT_PERCENTAGE then
      match readFloat s with
      | none => (READ_FAILURE, s, percent)
      | some (v, s1) => (4, s1, v)
    else (UNKNOWN_CHUNK, s, percent)

/-- processTexmapChunk from 3dsread.cpp: a map-name chunk sets the texture
map filename. -/
def processTexmapChunk : ProcessChunkFunc M3DMaterial :=
  fun s chunkType _ material =>
    if chunkType = M3DCHUNK_MATERIAL_MAPNAME then
      match readString s with
      | none => (READ_FAILURE, s, material)
      | some (name, count, s1) => ((count : Int), s1, material.setTextureMap name)
    else (UNKNOWN_CHUNK, s, material)

/-- processMaterialChunk from 3dsread.cpp: the material level handler.  The
local colour accumulator starts from the default colour; the local percentage
accumulator is an uninitialised C++ float, modelled as 0 (every path that
stores it first overwrites it through the percentage handler). -/
def processMaterialChunk : ProcessChunkFunc M3DMaterial :=
  fun s chunkType contentSize material =>
    if chunkType = M3DCHUNK_MATERIAL_NAME then
      match readString s with
      | none => (READ_FAILURE, s, material)
      | some (name, count, s1) => ((count : Int), s1, material.setName name)
    else if chunkType = M3DCHUNK_MATERIAL_AMBIENT then
      match read3DSChunks processColorChunk contentSize s M3DColor.black with
      | (bytesRead, s1, color) =>
        if bytesRead < 0 then (READ_FAILURE, s1, material)
        else (bytesRead, s1, material.setAmbientColor color)
    else if chunkType = M3DCHUNK_MATERIAL_DIFFUSE then
      match read3DSChunks processColorChunk contentSize s M3DColor.black with
      | (bytesRead, s1, color) =>
        if bytesRead < 0 then (READ_FAILURE, s1, material)
        else (bytesRead, s1, material.setDiffuseColor color)
    else if chunkType = M3DCHUNK_MATERIAL_SPECULAR then
      match read3DSChunks processColorChunk contentSize s M3DColor.black with
      | (bytesRead, s1, color) =>
        if bytesRead < 0 then (READ_FAILURE, s1, material)
        else (bytesRead, s1, material.setSpecularColor color)
    else if chunkType = M3DCHUNK_MATERIAL_SHININESS then
      match read3DSChunks processPercentageChunk contentSize s 0 with
      | (bytesRead, s1, t) =>
        if bytesRead < 0 then (READ_FAILURE, s1, material)
        else (bytesRead, s1, material.setShininess t)
    else if chunkType = M3DCHUNK_MATERIAL_TRANSPARENCY then
      match read3DSChunks processPercentageChunk contentSize s 0 with
      | (bytesRead, s1, t) =>
        if bytesRead < 0 then (READ_FAILURE, s1, material)
        else (bytesRead, s1, material.setOpacity (1 - t / 100))
    else if chunkType = M3DCHUNK_MATERIAL_TEXMAP then
      read3DSChunks processTexmapChunk contentSize s material
    else (UNKNOWN_CHUNK, s, material)

/-- processSceneChunk from 3dsread.cpp: the scene level handler.  A named
object reads its name, parses a fresh model over the remaining content and
attaches it only on success; a material entry parses a fresh material and
attaches it only on success; a background colour chunk recurses with the
colour handler; other types are unknown. -/
def processSceneChunk : ProcessChunkFunc M3DScene :=
  fun s chunkType contentSize scene =>
    if chunkType = M3DCHUNK_NAMED_OBJECT then
      match readString s with
      | none => (READ_FAILURE, s, scene)
      | some (name, bytesRead, s1) =>
        match read3DSChunks processModelChunk (contentSize - (bytesRead : Int)) s1
            (M3DModel.empty.setName name) with
        | (chunksSize, s2, model) =>
          if chunksSize < 0 then (READ_FAILURE, s2, scene)
          else ((bytesRead : Int) + chunksSize, s2, scene.addModel model)
    else if chunkType = M3DCHUNK_MATERIAL_ENTRY then
      match read3DSChunks processMaterialChunk contentSize s M3DMaterial.empty with
      | (bytesRead, s1, material) =>
        if bytesRead < 0 then (READ_FAILURE, s1, scene)
        else (bytesRead, s1, scene.addMaterial material)
    else if chunkType = M3DCHUNK_BACKGROUND_COLOR then
      match read3DSChunks processColorChunk contentSize s M3DColor.black with
      | (bytesRead, s1, color) =>
        if bytesRead < 0 then (READ_FAILURE, s1, scene)
        else (bytesRead, s1, scene.setBackgroundColor color)
    else (UNKNOWN_CHUNK, s, scene)

/-- processTopLevelChunk from 3dsread.cpp: only the mesh-data chunk is
recognised, recursing with the scene handler. -/
def processTopLevelChunk : ProcessChunkFunc M3DScene :=
  fun s chunkType contentSize scene =>
    if chunkType = M3DCHUNK_MESHDATA then
      read3DSChunks processSceneChunk contentSize s scene
    else (UNKNOWN_CHUNK, s, scene)

/-- Read3DSFile from 3dsread.cpp (stream form): check the magic uint16, read
the outer int32 size (at least 6), drive the top-level handler over the
content, and return the scene only when the content was consumed exactly. -/
def Read3DSFile (s : ByteStream) : Option M3DScene :=
  match readUshort s with
  | none => none
  | some (chunkType, s1) =>
    if chunkType ≠ M3DCHUNK_MAGIC then none
    else
      match readInt s1 with
      | none => none
      | some (chunkSize, s2) =>
        if chunkSize < 6 then none
        else
          match read3DSChunks processTopLevelChunk (chunkSize - 6) s2 M3DScene.empty with
          | (bytesRead, _, scene) =>
            if bytesRead < 0 then none
            else if bytesRead ≠ chunkSize - 6 then none
            else some scene

/-! Helper lemmas about the primitive readers and the chunk loop. -/

/-- A successful readUshort consumes exactly two bytes. -/
theorem readUshort_length {s s1 : ByteStream} {v : Nat}
    (h : readUshort s = some (v, s1)) : s.length = s1.length + 2 := by
  match s with
  | b0 :: b1 :: rest =>
    simp only [readUshort, Option.some.injEq, Prod.mk.injEq] at h
    simp [← h.2]
  | [] => simp [readUshort] at h
  | [b0] => simp [readUshort] at h

/-- A successful readInt consumes exactly four bytes. -/
theorem readInt_length {s s1 : ByteStream} {v : Int}
    (h : readInt s = some (v, s1)) : s.length = s1.length + 4 := by
  match s with
  | b0 :: b1 :: b2 :: b3 :: rest =>
    simp only [readInt, Option.some.injEq, Prod.mk.injEq] at h
    simp [← h.2]
  | [] => simp [readInt] at h
  | [b0] => simp [readInt] at h
  | [b0, b1] => simp [readInt] at h
  | [b0, b1, b2] => simp [readInt] at h

/-- Whatever the handler does, the dispatcher either fails or returns the
declared header-inclusive size, which the header check bounds below by 6. -/
theorem read3DSChunk_failure_or_ge_six {T : Type} (f : ProcessChunkFunc T)
    (s : ByteStream) (t : T) :
    (read3DSChunk f s t).1 = READ_FAILURE ∨ 6 ≤ (read3DSChunk f s t).1 := by
  unfold read3DSChunk
  split
  · exact Or.inl rfl
  split
  · exact Or.inl rfl
  split
  · exact Or.inl rfl
  split
  split
  · exact Or.inl rfl
  split
  · split
    · rename_i hge _ _ _ _
      exact Or.inr (by omega)
    · exact Or.inl rfl
  split
  · exact Or.inl rfl
  · rename_i hge _ _ _ _ _
    exact Or.inr (by omega)

/-- Loop shape: a budget already overshot (or an initially negative budget)
falls out of the loop and fails the exactness check. -/
theorem read3DSChunksAux_stop {T : Type} (f : ProcessChunkFunc T)
    {nBytes bytesRead : Int} (s : ByteStream) (t : T)
    (h : ¬ bytesRead < nBytes) (h2 : bytesRead ≠ nBytes) :
    read3DSChunksAux f nBytes bytesRead s t = (READ_FAILURE, s, t) := by
  rw [read3DSChunksAux, if_neg h, if_pos h2]

/-- Loop shape: an accumulator that has exactly met the budget succeeds. -/
theorem read3DSChunksAux_done {T : Type} (f : ProcessChunkFunc T)
    {nBytes bytesRead : Int} (s : ByteStream) (t : T) (h : bytesRead = nBytes) :
    read3DSChunksAux f nBytes bytesRead s t = (nBytes, s, t) := by
  subst h
  rw [read3DSChunksAux, if_neg (by omega)]
  simp

/-- Loop shape: below budget, a failed dispatch fails the loop immediately,
leaving the stream and object exactly as the failing dispatch left them. -/
theorem read3DSChunksAux_fail {T : Type} (f : ProcessChunkFunc T)
    {nBytes bytesRead c : Int} {s s1 : ByteStream} {t t1 : T}
    (h : bytesRead < nBytes) (hc : read3DSChunk f s t = (c, s1, t1)) (hneg : c < 0) :
    read3DSChunksAux f nBytes bytesRead s t = (READ_FAILURE, s1, t1) := by
  rw [read3DSChunksAux, if_pos h, hc]
  simp [hneg]

/-- Loop shape: below budget, a successful dispatch adds its chunk size to
the accumulator and continues. -/
theorem read3DSChunksAux_step {T : Type} (f : ProcessChunkFunc T)
    {nBytes bytesRead c : Int} {s s1 : ByteStream} {t t1 : T}
    (h : bytesRead < nBytes) (hc : read3DSChunk f s t = (c, s1, t1)) (hnn : ¬ c < 0) :
    read3DSChunksAux f nBytes bytesRead s t =
      read3DSChunksAux f nBytes (bytesRead + c) s1 t1 := by
  rw [read3DSChunksAux, if_pos h, hc]
  simp [hnn]

/-- Completeness half of the loop characterisation: a complete exact run
forces the loop to succeed with the run's final state. -/
theorem read3DSChunksAux_eq_of_chunkRun {T : Type} {f : ProcessChunkFunc T}
    {nBytes : Int} {budget : Int} {s s2 : ByteStream} {t t2 : T}
    (hrun : ChunkRun f budget s t s2 t2) :
    ∀ {bytesRead : Int}, budget = nBytes - bytesRead →
      read3DSChunksAux f nBytes bytesRead s t = (nBytes, s2, t2) := by
  induction hrun with
  | nil s t =>
    intro bytesRead hb
    exact read3DSChunksAux_done f s t (by omega)
  | cons hpos hchunk hcnn hrest ih =>
    intro bytesRead hb
    rw [read3DSChunksAux_step f (by omega) hchunk (by omega)]
    exact ih (by omega)

/-- Soundness half of the loop characterisation: a loop pass that does not
fail is a complete exact run ending in the returned state. -/
theorem chunkRun_of_read3DSChunksAux {T : Type} (f : ProcessChunkFunc T)
    (nBytes bytesRead : Int) (s : ByteStream) (t : T)
    (h : (read3DSChunksAux f nBytes bytesRead s t).1 ≠ READ_FAILURE) :
    ∃ s2 t2, ChunkRun f (nBytes - bytesRead) s t s2 t2 ∧
      read3DSChunksAux f nBytes bytesRead s t = (nBytes, s2, t2) := by
  by_cases hlt : bytesRead < nBytes
  · rcases hr : read3DSChunk f s t with ⟨c, s1, t1⟩
    by_cases hneg : c < 0
    · rw [read3DSChunksAux_fail f hlt hr hneg] at h
      simp at h
    · have hge : 6 ≤ c := by
        rcases read3DSChunk_failure_or_ge_six f s t with hf | hs
        · rw [hr] at hf
          simp only [READ_FAILURE] at hf
          omega
        · rw [hr] at hs
          exact hs
      rw [read3DSChunksAux_step f hlt hr hneg] at h ⊢
      obtain ⟨s2, t2, hrun, heq⟩ :=
        chunkRun_of_read3DSChunksAux f nBytes (bytesRead + c) s1 t1 h
      refine ⟨s2, t2, ?_, heq⟩
      have hbd : nBytes - (bytesRead + c) = (nBytes - bytesRead) - c := by ring
      rw [hbd] at hrun
      exact ChunkRun.cons (by omega) hr (by omega) hrun
  · by_cases heq : bytesRead = nBytes
    · subst heq
      rw [read3DSChunksAux_done f s t rfl]
      exact ⟨s, t, by simpa using ChunkRun.nil s t, rfl⟩
    · rw [read3DSChunksAux_stop f s t hlt heq] at h
      simp at h
termination_by (nBytes - bytesRead).toNat
decreasing_by omega

/-- A chunk run never has a negative budget: its chunk sizes are nonnegative
and sum to the budget. -/
theorem chunkRun_nonneg {T : Type} {f : ProcessChunkFunc T} {budget : Int}
    {s s2 : ByteStream} {t t2 : T} (hrun : ChunkRun f budget s t s2 t2) :
    0 ≤ budget := by
  induction hrun with
  | nil s t => exact le_refl 0
  | cons hpos hchunk hc hrest ih => omega

/-- C1: for every chunk whose handler returns a non-sentinel consumed count,
the dispatcher returns the declared header-inclusive size chunkSize exactly
when the count equals the declared content size chunkSize - 6; any other
non-sentinel count makes it fail, and a declared size below 6 makes it fail
regardless of the handler. -/
theorem read3DSChunk_recognized_reconciliation {T : Type} (f : ProcessChunkFunc T)
    (s s1 s2 s3 : ByteStream) (t t3 : T) (chunkType : Nat) (chunkSize processedSize : Int)
    (hty : readUshort s = some (chunkType, s1))
    (hsz : readInt s1 = some (chunkSize, s2))
    (hf : f s2 chunkType (chunkSize - 6) t = (processedSize, s3, t3))
    (hns : processedSize ≠ READ_FAILURE) (hnu : processedSize ≠ UNKNOWN_CHUNK) :
    (chunkSize < 6 → (read3DSChunk f s t).1 = READ_FAILURE) ∧
    (6 ≤ chunkSize →
      (((read3DSChunk f s t).1 = chunkSize ↔ processedSize = chunkSize - 6) ∧
        (processedSize ≠ chunkSize - 6 → (read3DSChunk f s t).1 = READ_FAILURE))) := by
  unfold read3DSChunk
  simp only [hty, hsz, hf]
  constructor
  · intro hlt
    rw [if_pos hlt]
  · intro hge
    rw [if_neg (by omega), if_neg hns, if_neg hnu]
    by_cases hpc : processedSize = chunkSize - 6
    · rw [if_neg (by simpa using hpc)]
      constructor
      · exact ⟨fun _ => hpc, fun _ => rfl⟩
      · intro hne
        exact absurd hpc hne
    · rw [if_pos hpc]
      refine ⟨⟨fun hres => ?_, fun heq => absurd heq hpc⟩, fun _ => rfl⟩
      simp only [READ_FAILURE] at hres
      omega

/-- C1 witness: a texture-map-name chunk of declared size 8 whose handler
consumes exactly the 2 content bytes makes the dispatcher return 8. -/
theorem read3DSChunk_recognized_reconciliation_witness :
    (read3DSChunk processTexmapChunk [0x00, 0xa3, 8, 0, 0, 0, 65, 0]
        M3DMaterial.empty).1 = 8 :=
  (((read3DSChunk_recognized_reconciliation processTexmapChunk
      [0x00, 0xa3, 8, 0, 0, 0, 65, 0] [8, 0, 0, 0, 65, 0] [65, 0] []
      M3DMaterial.empty (M3DMaterial.empty.setTextureMap [65]) 0xa300 8 2
      (by rfl) (by rfl) (by rfl) (by decide) (by decide)).2
      (by decide)).1).mpr (by decide)

/-- C2: the chunk-sequence reader succeeds, returning exactly its byte
budget, precisely when the dispatched chunks form a complete run whose
header-inclusive sizes sum to the budget exactly; an accumulated total past
the budget falls out of the loop and fails, and a failed dispatch below the
budget ends the loop immediately with failure. -/
theorem read3DSChunks_exact_budget {T : Type} (f : ProcessChunkFunc T)
    (nBytes : Int) (s : ByteStream) (t : T) :
    ((read3DSChunks f nBytes s t).1 ≠ READ_FAILURE ↔
        ∃ s2 t2, ChunkRun f nBytes s t s2 t2 ∧
          read3DSChunks f nBytes s t = (nBytes, s2, t2)) ∧
    (∀ (bytesRead : Int) (s0 : ByteStream) (t0 : T), nBytes < bytesRead →
        read3DSChunksAux f nBytes bytesRead s0 t0 = (READ_FAILURE, s0, t0)) ∧
    (∀ (bytesRead c : Int) (s0 s1 : ByteStream) (t0 t1 : T), bytesRead < nBytes →
        read3DSChunk f s0 t0 = (c, s1, t1) → c < 0 →
        read3DSChunksAux f nBytes bytesRead s0 t0 = (READ_FAILURE, s1, t1)) := by
  refine ⟨⟨?_, ?_⟩, ?_, ?_⟩
  · intro h
    obtain ⟨s2, t2, hrun, heq⟩ := chunkRun_of_read3DSChunksAux f nBytes 0 s t h
    exact ⟨s2, t2, by simpa using hrun, heq⟩
  · rintro ⟨s2, t2, hrun, heq⟩
    have hnn : 0 ≤ nBytes := chunkRun_nonneg hrun
    rw [read3DSChunks] at heq ⊢
    rw [heq]
    simp only [READ_FAILURE]
    omega
  · intro bytesRead s0 t0 hgt
    exact read3DSChunksAux_stop f s0 t0 (by omega) (by omega)
  · intro bytesRead c s0 s1 t0 t1 hlt hc hneg
    exact read3DSChunksAux_fail f hlt hc hneg

/-- C2 witness: with a budget of 6 and an empty stream the first dispatch
fails, ending the loop immediately with the failure result. -/
theorem read3DSChunks_exact_budget_witness :
    read3DSChunksAux processColorChunk 6 0 [] M3DColor.black =
      (READ_FAILURE, [], M3DColor.black) :=
  (read3DSChunks_exact_budget processColorChunk 6 [] M3DColor.black).2.2
    0 READ_FAILURE [] [] M3DColor.black M3DColor.black (by decide) (by decide) (by decide)

/-- C3: when the handler reports a chunk type unknown, leaving stream and
object untouched, and the stream holds the declared content, the dispatcher
skips exactly the declared content bytes, returns the header-inclusive size
(success, not the failure sentinel), and the cursor advance over the whole
chunk is exactly chunkSize bytes, whatever the skipped bytes contain. -/
theorem read3DSChunk_unknown_skip {T : Type} (f : ProcessChunkFunc T)
    (s s1 s2 : ByteStream) (t : T) (chunkType : Nat) (chunkSize : Int)
    (hty : readUshort s = some (chunkType, s1))
    (hsz : readInt s1 = some (chunkSize, s2))
    (h6 : 6 ≤ chunkSize)
    (hf : f s2 chunkType (chunkSize - 6) t = (UNKNOWN_CHUNK, s2, t))
    (hlen : (chunkSize - 6).toNat ≤ s2.length) :
    read3DSChunk f s t = (chunkSize, s2.drop (chunkSize - 6).toNat, t) ∧
      (s2.drop (chunkSize - 6).toNat).length + chunkSize.toNat = s.length := by
  have h1 := readUshort_length hty
  have h2 := readInt_length hsz
  constructor
  · unfold read3DSChunk
    simp only [hty, hsz, hf]
    rw [if_neg (by omega), if_neg (by decide), if_pos trivial]
    unfold ignoreBytes
    rw [if_pos hlen]
  · have h3 := List.length_drop (chunkSize - 6).toNat s2
    omega

/-- C3 witness: an 8-byte chunk of a type the colour handler does not know is
skipped whole and reported as consumed. -/
theorem read3DSChunk_unknown_skip_witness :
    read3DSChunk processColorChunk [0x99, 0x99, 8, 0, 0, 0, 7, 7] M3DColor.black =
      (8, [], M3DColor.black) := by
  have h := read3DSChunk_unknown_skip processColorChunk
    [0x99, 0x99, 8, 0, 0, 0, 7, 7] [8, 0, 0, 0, 7, 7] [7, 7] M3DColor.black 0x9999 8
    (by decide) (by decide) (by decide) (by decide) (by decide)
  simpa using h.1

/-- C10: a zero byte budget makes the chunk loop return 0 at once with the
stream and object untouched, whatever the handler; consequently the minimal
stream, the magic tag followed by a declared total size of exactly 6, decodes
to the empty scene rather than failing. -/
theorem read3DSChunks_zero_budget_empty_file :
    (∀ (T : Type) (f : ProcessChunkFunc T) (s : ByteStream) (t : T),
        read3DSChunks f 0 s t = (0, s, t)) ∧
      Read3DSFile [0x4d, 0x4d, 6, 0, 0, 0] = some M3DScene.empty := by
  have hz : ∀ (T : Type) (f : ProcessChunkFunc T) (s : ByteStream) (t : T),
      read3DSChunks f 0 s t = (0, s, t) := by
    intro T f s t
    exact read3DSChunksAux_done f s t rfl
  refine ⟨hz, ?_⟩
  have h1 : readUshort [0x4d, 0x4d, 6, 0, 0, 0] = some (0x4d4d, [6, 0, 0, 0]) := rfl
  have h2 : readInt [6, 0, 0, 0] = some (6, []) := rfl
  simp only [Read3DSFile, h1, h2, M3DCHUNK_MAGIC]
  norm_num [hz]

/-- The smoothing-group loop either fails or consumes exactly 4 bytes per
requested value, appending exactly that many values to the mesh. -/
theorem readSmoothingGroupsAux_spec :
    ∀ (n : Nat) (s : ByteStream) (m : M3DTriangleMesh) (b : Int),
      (readSmoothingGroupsAux n s m b).1 = READ_FAILURE ∨
        ((readSmoothingGroupsAux n s m b).1 = b + 4 * n ∧
          (readSmoothingGroupsAux n s m b).2.2.smoothingGroups.length =
            m.smoothingGroups.length + n) := by
  intro n
  induction n with
  | zero =>
    intro s m b
    right
    simp [readSmoothingGroupsAux]
  | succ k ih =>
    intro s m b
    rw [readSmoothingGroupsAux]
    rcases hr : readInt s with _ | ⟨v, s1⟩
    · exact Or.inl rfl
    · simp only []
      by_cases hv : v < 0
      · rw [if_pos hv]
        exact Or.inl rfl
      · rw [if_neg hv]
        rcases ih s1 (m.addSmoothingGroups v.toNat) (b + 4) with hf | ⟨hc, hl⟩
        · exact Or.inl hf
        · right
          refine ⟨by rw [hc]; push_cast; ring, ?_⟩
          rw [hl]
          simp [M3DTriangleMesh.addSmoothingGroups]
          omega

/-- C4: a smoothing-group chunk reads exactly one 32-bit value per existing
mesh face: on any non-failing outcome the handler consumes exactly
4 * faceCount bytes and appends exactly faceCount values; a declared content
size other than 4 * faceCount (in particular one or one less or more value)
makes the dispatcher fail the parse; and a negative value read at any loop
position is an immediate hard failure. -/
theorem smoothing_groups_match_face_count (mesh : M3DTriangleMesh) :
    (∀ (s : ByteStream) (c : Int),
        (processFaceArrayChunk s M3DCHUNK_MESH_SMOOTH_GROUP c mesh).1 ≠ READ_FAILURE →
          (processFaceArrayChunk s M3DCHUNK_MESH_SMOOTH_GROUP c mesh).1 =
              4 * mesh.getFaceCount ∧
            (processFaceArrayChunk s M3DCHUNK_MESH_SMOOTH_GROUP c mesh).2.2.smoothingGroups.length =
              mesh.smoothingGroups.length + mesh.getFaceCount) ∧
    (∀ (s s1 s2 : ByteStream) (chunkType : Nat) (chunkSize : Int),
        readUshort s = some (chunkType, s1) →
        readInt s1 = some (chunkSize, s2) →
        chunkType = M3DCHUNK_MESH_SMOOTH_GROUP →
        chunkSize - 6 ≠ 4 * mesh.getFaceCount →
        (read3DSChunk processFaceArrayChunk s mesh).1 = READ_FAILURE) ∧
    (∀ (n : Nat) (s s1 : ByteStream) (m : M3DTriangleMesh) (b v : Int),
        0 < n → readInt s = some (v, s1) → v < 0 →
        readSmoothingGroupsAux n s m b = (READ_FAILURE, s1, m)) := by
  have hsm : ∀ (s : ByteStream) (c : Int),
      processFaceArrayChunk s M3DCHUNK_MESH_SMOOTH_GROUP c mesh =
        readSmoothingGroupsAux mesh.getFaceCount s mesh 0 := by
    intro s c
    unfold processFaceArrayChunk
    rw [if_neg (by decide), if_pos rfl]
  refine ⟨?_, ?_, ?_⟩
  · intro s c hne
    rw [hsm s c] at hne ⊢
    rcases readSmoothingGroupsAux_spec mesh.getFaceCount s mesh 0 with hf | ⟨hc, hl⟩
    · exact absurd hf hne
    · exact ⟨by rw [hc]; ring, hl⟩
  · intro s s1 s2 chunkType chunkSize hty hsz htk hne
    subst htk
    unfold read3DSChunk
    simp only [hty, hsz]
    by_cases h6 : chunkSize < 6
    · rw [if_pos h6]
    · rw [if_neg h6]
      rcases hp : processFaceArrayChunk s2 M3DCHUNK_MESH_SMOOTH_GROUP (chunkSize - 6) mesh
        with ⟨r, s3, m3⟩
      simp only []
      rcases readSmoothingGroupsAux_spec mesh.getFaceCount s2 mesh 0 with hf | ⟨hc, _⟩
      · rw [hsm s2 (chunkSize - 6)] at hp
        rw [hp] at hf
        simp only [] at hf
        rw [if_pos hf]
      · rw [hsm s2 (chunkSize - 6)] at hp
        rw [hp] at hc
        simp only [] at hc
        have hr4 : r = 4 * mesh.getFaceCount := by rw [hc]; ring
        rw [if_neg (by rw [hr4]; simp only [READ_FAILURE]; omega),
          if_neg (by rw [hr4]; simp only [UNKNOWN_CHUNK]; omega),
          if_pos (by rw [hr4]; omega)]
  · intro n s s1 m b v hn hr hv
    match n, hn with
    | k + 1, _ =>
      rw [readSmoothingGroupsAux, hr]
      simp only []
      rw [if_pos hv]

/-- C4 witness: a mesh holding one face rejects a smoothing-group chunk that
declares two values. -/
theorem smoothing_groups_match_face_count_witness :
    (read3DSChunk processFaceArrayChunk
        [0x50, 0x41, 14, 0, 0, 0, 1, 0, 0, 0, 1, 0, 0, 0]
        (M3DTriangleMesh.empty.addFace (0, 1, 2))).1 = READ_FAILURE :=
  (smoothing_groups_match_face_count (M3DTriangleMesh.empty.addFace (0, 1, 2))).2.1
    [0x50, 0x41, 14, 0, 0, 0, 1, 0, 0, 0, 1, 0, 0, 0]
    [14, 0, 0, 0, 1, 0, 0, 0, 1, 0, 0, 0] [1, 0, 0, 0, 1, 0, 0, 0]
    0x4150 14 (by rfl) (by rfl) (by rfl) (by decide)

/-- C6: a stream whose first 16-bit little-endian field is not the magic tag
is rejected outright, whatever bytes follow: the result does not depend on
anything beyond the first two bytes. -/
theorem read3DSFile_magic_mismatch (b0 b1 : Nat)
    (h : b0 + 2 ^ 8 * b1 ≠ M3DCHUNK_MAGIC) :
    ∀ rest : ByteStream, Read3DSFile (b0 :: b1 :: rest) = none := by
  intro rest
  unfold Read3DSFile
  rw [show readUshort (b0 :: b1 :: rest) = some (b0 + 2 ^ 8 * b1, rest) from rfl]
  simp only []
  rw [if_pos h]

/-- C6 witness: a stream starting with two zero bytes is rejected. -/
theorem read3DSFile_magic_mismatch_witness : Read3DSFile [0, 0] = none :=
  read3DSFile_magic_mismatch 0 0 (by decide) []

/-- C5: each sub-object (Model or Material under the scene handler,
TriangleMesh under the model handler, MaterialGroup under the face-array
trailer handler) is attached to its parent only when its parse step did not
fail: on a READ_FAILURE result the parent comes back unchanged, and on a
non-failing result for the corresponding chunk type the parent comes back
with exactly one freshly appended child. -/
theorem subobject_attached_only_on_success :
    (∀ (s : ByteStream) (chunkType : Nat) (c : Int) (scene : M3DScene),
        ((processSceneChunk s chunkType c scene).1 = READ_FAILURE →
          (processSceneChunk s chunkType c scene).2.2 = scene) ∧
        (chunkType = M3DCHUNK_NAMED_OBJECT →
          (processSceneChunk s chunkType c scene).1 ≠ READ_FAILURE →
          ∃ model, (processSceneChunk s chunkType c scene).2.2 = scene.addModel model) ∧
        (chunkType = M3DCHUNK_MATERIAL_ENTRY →
          (processSceneChunk s chunkType c scene).1 ≠ READ_FAILURE →
          ∃ material,
            (processSceneChunk s chunkType c scene).2.2 = scene.addMaterial material)) ∧
    (∀ (s : ByteStream) (chunkType : Nat) (c : Int) (model : M3DModel),
        ((processModelChunk s chunkType c model).1 = READ_FAILURE →
          (processModelChunk s chunkType c model).2.2 = model) ∧
        (chunkType = M3DCHUNK_TRIANGLE_MESH →
          (processModelChunk s chunkType c model).1 ≠ READ_FAILURE →
          ∃ mesh, (processModelChunk s chunkType c model).2.2 = model.addTriMesh mesh)) ∧
    (∀ (s : ByteStream) (c : Int) (mesh : M3DTriangleMesh),
        ((processFaceArrayChunk s M3DCHUNK_MESH_MATERIAL_GROUP c mesh).1 = READ_FAILURE →
          (processFaceArrayChunk s M3DCHUNK_MESH_MATERIAL_GROUP c mesh).2.2 = mesh) ∧
        ((processFaceArrayChunk s M3DCHUNK_MESH_MATERIAL_GROUP c mesh).1 ≠ READ_FAILURE →
          ∃ g, (processFaceArrayChunk s M3DCHUNK_MESH_MATERIAL_GROUP c mesh).2.2 =
            mesh.addMeshMaterialGroup g)) := by
  refine ⟨?_, ?_, ?_⟩
  · intro s chunkType c scene
    unfold processSceneChunk
    by_cases h1 : chunkType = M3DCHUNK_NAMED_OBJECT
    · rw [if_pos h1]
      rcases hs : readString s with _ | ⟨⟨name, count, s1⟩⟩
      · exact ⟨fun _ => rfl, fun _ hne => absurd rfl hne,
          fun h2 _ => absurd (h1.symm.trans h2) (by decide)⟩
      · simp only []
        rcases hm : read3DSChunks processModelChunk (c - (count : Int)) s1
            (M3DModel.empty.setName name) with ⟨chunksSize, s2, model⟩
        simp only []
        by_cases hcs : chunksSize < 0
        · rw [if_pos hcs]
          exact ⟨fun _ => rfl, fun _ hne => absurd rfl hne,
            fun h2 _ => absurd (h1.symm.trans h2) (by decide)⟩
        · rw [if_neg hcs]
          refine ⟨fun habs => absurd habs (by simp only [READ_FAILURE]; omega),
            fun _ _ => ⟨model, rfl⟩,
            fun h2 _ => absurd (h1.symm.trans h2) (by decide)⟩
    · rw [if_neg h1]
      by_cases h2 : chunkType = M3DCHUNK_MATERIAL_ENTRY
      · rw [if_pos h2]
        rcases hm : read3DSChunks processMaterialChunk c s M3DMaterial.empty
          with ⟨bytesRead, s1, material⟩
        simp only []
        by_cases hb : bytesRead < 0
        · rw [if_pos hb]
          exact ⟨fun _ => rfl, fun h3 _ => absurd h3 h1, fun _ hne => absurd rfl hne⟩
        · rw [if_neg hb]
          exact ⟨fun habs => absurd habs (by simp only [READ_FAILURE]; omega),
            fun h3 _ => absurd h3 h1, fun _ _ => ⟨material, rfl⟩⟩
      · rw [if_neg h2]
        by_cases h3 : chunkType = M3DCHUNK_BACKGROUND_COLOR
        · rw [if_pos h3]
          rcases hm : read3DSChunks processColorChunk c s M3DColor.black
            with ⟨bytesRead, s1, color⟩
          simp only []
          by_cases hb : bytesRead < 0
          · rw [if_pos hb]
            exact ⟨fun _ => rfl, fun h4 _ => absurd h4 h1, fun h4 _ => absurd h4 h2⟩
          · rw [if_neg hb]
            exact ⟨fun habs => absurd habs (by simp only [READ_FAILURE]; omega),
              fun h4 _ => absurd h4 h1, fun h4 _ => absurd h4 h2⟩
        · rw [if_neg h3]
          exact ⟨fun _ => rfl, fun h4 _ => absurd h4 h1, fun h4 _ => absurd h4 h2⟩
  · intro s chunkType c model
    unfold processModelChunk
    by_cases h1 : chunkType = M3DCHUNK_TRIANGLE_MESH
    · rw [if_pos h1]
      rcases hm : read3DSChunks processTriMeshChunk c s M3DTriangleMesh.empty
        with ⟨bytesRead, s1, triMesh⟩
      simp only []
      by_cases hb : bytesRead = READ_FAILURE
      · rw [if_pos hb]
        exact ⟨fun _ => rfl, fun _ hne => absurd rfl hne⟩
      · rw [if_neg hb]
        exact ⟨fun habs => absurd habs hb, fun _ _ => ⟨triMesh, rfl⟩⟩
    · rw [if_neg h1]
      exact ⟨fun _ => rfl, fun h2 _ => absurd h2 h1⟩
  · intro s c mesh
    unfold processFaceArrayChunk
    rw [if_pos rfl]
    rcases hs : readString s with _ | ⟨⟨materialName, count, s1⟩⟩
    · exact ⟨fun _ => rfl, fun hne => absurd rfl hne⟩
    · simp only []
      rcases hu : readUshort s1 with _ | ⟨⟨nFaces, s2⟩⟩
      · exact ⟨fun _ => rfl, fun hne => absurd rfl hne⟩
      · simp only []
        rcases hg : readMatGroupFacesAux nFaces s2 ⟨materialName, []⟩ ((count : Int) + 2)
          with ⟨bytesRead, s3, matGroup⟩
        simp only []
        by_cases hb : bytesRead < 0
        · rw [if_pos hb]
          exact ⟨fun _ => rfl, fun hne => absurd rfl hne⟩
        · rw [if_neg hb]
          exact ⟨fun habs => absurd habs (by simp only [READ_FAILURE]; omega),
            fun _ => ⟨matGroup, rfl⟩⟩

/-- C5 witness: a named-object chunk whose name string runs off the end of
the stream fails and leaves the scene unchanged. -/
theorem subobject_attached_only_on_success_witness :
    (processSceneChunk [] M3DCHUNK_NAMED_OBJECT 10 M3DScene.empty).2.2 = M3DScene.empty :=
  (subobject_attached_only_on_success.1 [] M3DCHUNK_NAMED_OBJECT 10 M3DScene.empty).1 (by rfl)

/-- Unfolding of readMeshMatrix along its twelve successful float reads. -/
theorem readMeshMatrix_eq
    (s0 s1 s2 s3 s4 s5 s6 s7 s8 s9 s10 s11 s12 : ByteStream)
    (e0 e1 e2 e3 e4 e5 e6 e7 e8 e9 e10 e11 : ℚ)
    (h0 : readFloat s0 = some (e0, s1)) (h1 : readFloat s1 = some (e1, s2))
    (h2 : readFloat s2 = some (e2, s3)) (h3 : readFloat s3 = some (e3, s4))
    (h4 : readFloat s4 = some (e4, s5)) (h5 : readFloat s5 = some (e5, s6))
    (h6 : readFloat s6 = some (e6, s7)) (h7 : readFloat s7 = some (e7, s8))
    (h8 : readFloat s8 = some (e8, s9)) (h9 : readFloat s9 = some (e9, s10))
    (h10 : readFloat s10 = some (e10, s11)) (h11 : readFloat s11 = some (e11, s12)) :
    readMeshMatrix s0 =
      some (⟨e0, e1, e2, 0, e3, e4, e5, 0, e6, e7, e8, 0, e9, e10, e11, 1⟩, s12) := by
  unfold readMeshMatrix
  rw [h0]
  simp only [Option.bind]
  rw [h1]
  simp only [Option.bind]
  rw [h2]
  simp only [Option.bind]
  rw [h3]
  simp only [Option.bind]
  rw [h4]
  simp only [Option.bind]
  rw [h5]
  simp only [Option.bind]
  rw [h6]
  simp only [Option.bind]
  rw [h7]
  simp only [Option.bind]
  rw [h8]
  simp only [Option.bind]
  rw [h9]
  simp only [Option.bind]
  rw [h10]
  simp only [Option.bind]
  rw [h11]

/-- C7 counterexample: twelve wire floats whose tenth value (the first
translation component) is 1.0 produce a stored matrix whose bottom row is
(1, 0, 0, 1), not (0, 0, 0, 1): the constant part of the expansion is not
the bottom row. -/
theorem readMeshMatrix_bottom_row_counterexample :
    (readMeshMatrix [0, 0, 0, 0, 0, 0, 0, 0, 0, 0, 0, 0,
        0, 0, 0, 0, 0, 0, 0, 0, 0, 0, 0, 0,
        0, 0, 0, 0, 0, 0, 0, 0, 0, 0, 0, 0,
        0, 0, 128, 63, 0, 0, 0, 0, 0, 0, 0, 0]).map
        (fun p => (p.1.m30, p.1.m31, p.1.m32, p.1.m33)) =
      some ((1 : ℚ), (0 : ℚ), (0 : ℚ), (1 : ℚ)) ∧
    some ((1 : ℚ), (0 : ℚ), (0 : ℚ), (1 : ℚ)) ≠ some ((0 : ℚ), (0 : ℚ), (0 : ℚ), (1 : ℚ)) := by
  constructor
  · have hz : ∀ r : ByteStream, readFloat (0 :: 0 :: 0 :: 0 :: r) = some (0, r) := by
      intro r
      norm_num [readFloat, bitsToFloat]
    have ho : ∀ r : ByteStream, readFloat (0 :: 0 :: 128 :: 63 :: r) = some (1, r) := by
      intro r
      norm_num [readFloat, bitsToFloat]
    rw [readMeshMatrix_eq _ _ _ _ _ _ _ _ _ _ _ _ _ _ _ _ _ _ _ _ _ _ _ _ _
      (hz _) (hz _) (hz _) (hz _) (hz _) (hz _) (hz _) (hz _) (hz _) (ho _) (hz _) (hz _)]
    rfl
  · simp only [ne_eq, Option.some.injEq, Prod.mk.injEq]
    norm_num

/-- C7 amended: the twelve wire floats of a mesh-matrix chunk fill the left
4x3 block of the stored matrix row by row (three basis rows, then the
translation in the bottom row), and the implicit constant part is the last
column (0, 0, 0, 1) rather than the bottom row. -/
theorem readMeshMatrix_affine_layout
    (s0 s1 s2 s3 s4 s5 s6 s7 s8 s9 s10 s11 s12 : ByteStream)
    (e0 e1 e2 e3 e4 e5 e6 e7 e8 e9 e10 e11 : ℚ)
    (h0 : readFloat s0 = some (e0, s1)) (h1 : readFloat s1 = some (e1, s2))
    (h2 : readFloat s2 = some (e2, s3)) (h3 : readFloat s3 = some (e3, s4))
    (h4 : readFloat s4 = some (e4, s5)) (h5 : readFloat s5 = some (e5, s6))
    (h6 : readFloat s6 = some (e6, s7)) (h7 : readFloat s7 = some (e7, s8))
    (h8 : readFloat s8 = some (e8, s9)) (h9 : readFloat s9 = some (e9, s10))
    (h10 : readFloat s10 = some (e10, s11)) (h11 : readFloat s11 = some (e11, s12)) :
    readMeshMatrix s0 =
      some (⟨e0, e1, e2, 0, e3, e4, e5, 0, e6, e7, e8, 0, e9, e10, e11, 1⟩, s12) :=
  readMeshMatrix_eq s0 s1 s2 s3 s4 s5 s6 s7 s8 s9 s10 s11 s12
    e0 e1 e2 e3 e4 e5 e6 e7 e8 e9 e10 e11 h0 h1 h2 h3 h4 h5 h6 h7 h8 h9 h10 h11

/-- C7 witness: forty-eight zero bytes decode to the matrix whose left 4x3
block is zero and whose last column is (0, 0, 0, 1). -/
theorem readMeshMatrix_affine_layout_witness :
    readMeshMatrix [0, 0, 0, 0, 0, 0, 0, 0, 0, 0, 0, 0,
        0, 0, 0, 0, 0, 0, 0, 0, 0, 0, 0, 0,
        0, 0, 0, 0, 0, 0, 0, 0, 0, 0, 0, 0,
        0, 0, 0, 0, 0, 0, 0, 0, 0, 0, 0, 0] =
      some (⟨0, 0, 0, 0, 0, 0, 0, 0, 0, 0, 0, 0, 0, 0, 0, 1⟩, []) := by
  have hz : ∀ r : ByteStream, readFloat (0 :: 0 :: 0 :: 0 :: r) = some (0, r) := by
    intro r
    norm_num [readFloat, bitsToFloat]
  exact readMeshMatrix_affine_layout _ _ _ _ _ _ _ _ _ _ _ _ _ _ _ _ _ _ _ _ _ _ _ _ _
    (hz _) (hz _) (hz _) (hz _) (hz _) (hz _) (hz _) (hz _) (hz _) (hz _) (hz _) (hz _)

/-- C8: a material-transparency chunk runs the percentage handler over its
content and stores opacity 1 - t/100 on the material, where t is the decoded
percentage; in particular a percentage of 25 stores opacity 3/4. -/
theorem material_transparency_opacity (s s1 : ByteStream) (contentSize r : Int)
    (material : M3DMaterial) (t : ℚ)
    (h : read3DSChunks processPercentageChunk contentSize s 0 = (r, s1, t))
    (hr : ¬ r < 0) :
    processMaterialChunk s M3DCHUNK_MATERIAL_TRANSPARENCY contentSize material =
      (r, s1, material.setOpacity (1 - t / 100)) ∧
    (material.setOpacity (1 - (25 : ℚ) / 100)).opacity = 3 / 4 := by
  constructor
  · unfold processMaterialChunk
    rw [if_neg (by decide), if_neg (by decide), if_neg (by decide), if_neg (by decide),
      if_neg (by decide), if_pos rfl, h]
    simp only []
    rw [if_neg hr]
  · simp only [M3DMaterial.setOpacity]
    norm_num

/-- C8 witness: an 8-byte transparency content holding an integer-percentage
chunk of value 25 stores opacity 3/4 on the empty material. -/
theorem material_transparency_opacity_witness :
    (processMaterialChunk [0x30, 0x00, 8, 0, 0, 0, 25, 0] M3DCHUNK_MATERIAL_TRANSPARENCY 8
        M3DMaterial.empty).2.2.opacity = 3 / 4 := by
  have hd : read3DSChunk processPercentageChunk [0x30, 0x00, 8, 0, 0, 0, 25, 0] (0 : ℚ) =
      (8, [], 25) := by
    norm_num [read3DSChunk, readUshort, readInt, toSigned32, processPercentageChunk,
      readShort, toSigned16, M3DCHUNK_INT_PERCENTAGE, READ_FAILURE, UNKNOWN_CHUNK]
  have hl : read3DSChunks processPercentageChunk 8 [0x30, 0x00, 8, 0, 0, 0, 25, 0] 0 =
      (8, [], 25) := by
    rw [read3DSChunks, read3DSChunksAux_step processPercentageChunk (by norm_num) hd
      (by norm_num), read3DSChunksAux_done processPercentageChunk [] (25 : ℚ) (by norm_num)]
  have hmain := material_transparency_opacity [0x30, 0x00, 8, 0, 0, 0, 25, 0] [] 8 8
    M3DMaterial.empty 25 hl (by norm_num)
  rw [hmain.1]
  simpa using hmain.2

/-- C9: the integer-percentage handler performs no range validation: any two
available bytes decode as a signed 16-bit value that is accepted and widened,
negative or above 100 alike; consequently a transparency percentage of -50
stores opacity 3/2, strictly above 1. -/
theorem processPercentageChunk_no_range_check :
    (∀ (b0 b1 : Nat) (rest : ByteStream) (c : Int) (p : ℚ),
        processPercentageChunk (b0 :: b1 :: rest) M3DCHUNK_INT_PERCENTAGE c p =
          (2, rest, ((toSigned16 (b0 + 2 ^ 8 * b1) : Int) : ℚ))) ∧
    (processMaterialChunk [0x30, 0x00, 8, 0, 0, 0, 206, 255] M3DCHUNK_MATERIAL_TRANSPARENCY 8
        M3DMaterial.empty).2.2.opacity = 3 / 2 ∧
    (1 : ℚ) < 3 / 2 := by
  refine ⟨?_, ?_, by norm_num⟩
  · intro b0 b1 rest c p
    unfold processPercentageChunk
    rw [if_pos rfl]
    rfl
  · have hd : read3DSChunk processPercentageChunk [0x30, 0x00, 8, 0, 0, 0, 206, 255] (0 : ℚ) =
        (8, [], -50) := by
      norm_num [read3DSChunk, readUshort, readInt, toSigned32, processPercentageChunk,
        readShort, toSigned16, M3DCHUNK_INT_PERCENTAGE, READ_FAILURE, UNKNOWN_CHUNK]
    have hl : read3DSChunks processPercentageChunk 8 [0x30, 0x00, 8, 0, 0, 0, 206, 255] 0 =
        (8, [], -50) := by
      rw [read3DSChunks, read3DSChunksAux_step processPercentageChunk (by norm_num) hd
        (by norm_num), read3DSChunksAux_done processPercentageChunk [] (-50 : ℚ) (by norm_num)]
    unfold processMaterialChunk
    rw [if_neg (by decide), if_neg (by decide), if_neg (by decide), if_neg (by decide),
      if_neg (by decide), if_pos rfl, hl]
    simp only []
    rw [if_neg (by norm_num)]
    simp only [M3DMaterial.setOpacity]
    norm_num

end Cel3DS
